import Mathlib

/-!
A shallow embedding of the simplets mutual-credit ledger core
(file src/lib.rs of the simplets repository), together with proofs
about its limit formulas and its transfer protocol.

Modelling conventions:
* the reference platform is 64-bit, so the Rust cast `as usize` applied to a
  (possibly negative) `isize` value is reduction modulo 2 ^ 64;
* `isize` arithmetic inside the limit formulas is modelled exactly over `Int`
  (the intermediate values of interest are far from the `isize` bounds);
* the floating-point expressions of the source are modelled by their exact
  real values, computed with integer arithmetic:
  `floor (sqrt n * 2500)` is `Nat.sqrt (2500 ^ 2 * n)` and
  `floor (((2 * n) ^ 0.65) * 200)`, with `0.65 = 13 / 20`, is the integer
  20-th root of `(2 * n) ^ 13 * 200 ^ 20`;
* the SQLite database of a domain is modelled as the pair of its tables
  (a list of user rows and a list of payment rows); a SQL transaction is
  modelled by returning the committed state on `Ok` and no state at all on
  `Err` (dropping the transaction rolls every update back).
-/

namespace Simplets

/-- Rust numeric cast `as usize` applied to an `isize` value on a 64-bit
platform: two of-complement reinterpretation, i.e. reduction modulo
`2 ^ 64` into `[0, 2 ^ 64)`. -/
def usizeOfInt (v : Int) : Nat := (v % (2 ^ 64 : Int)).toNat

/-- Struct `User` of src/lib.rs.  `credit` is the signed balance (`isize`),
the two counters are `usize`.  Account ids are `i64` timestamps. -/
structure User where
  id : Int
  name : String
  credit : Int
  payments_in : Nat
  payments_out : Nat
  password : String
  created : String
  permission : Int
deriving Repr, DecidableEq

/-- Binary search for the greatest `r` with `r ^ k ≤ x`, maintaining
`lo ^ k ≤ x < hi ^ k`; the fuel bounds the number of halving steps. -/
def rootIter (k x : Nat) : Nat → Nat → Nat → Nat
  | 0, lo, _ => lo
  | fuel + 1, lo, hi =>
    if hi ≤ lo + 1 then lo
    else
      let mid := (lo + hi) / 2
      if mid ^ k ≤ x then rootIter k x fuel mid hi
      else rootIter k x fuel lo mid

/-- Integer `k`-th root: the greatest `r` with `r ^ k ≤ x` (for `k > 0`). -/
def rootFloor (k x : Nat) : Nat := rootIter k x (x + 2) 0 (x + 2)

/-- Exact value of `floor (sqrt n * 2500)`, modelling
`(n as f64).sqrt() * 2500.0` truncated to an integer
(the `f64` square root is correctly rounded; the model uses the exact
real value, which agrees on all inputs relevant here). -/
def sqrtTimes2500 (n : Nat) : Nat := Nat.sqrt (6250000 * n)

/-- Method `User::receive_limit` of src/lib.rs:
`(((payments_out as f64).sqrt() * 2500.0) as isize + 2500 - credit) as usize`.
The signed intermediate value is computed exactly in `Int` and the final
`as usize` cast reduces it modulo `2 ^ 64`. -/
def User.receive_limit (u : User) : Nat :=
  usizeOfInt ((sqrtTimes2500 u.payments_out : Int) + 2500 - u.credit)

/-- Method `User::credit_limit` of src/lib.rs:
`((payments_in as f64 * 2.0).powf(0.65) * 200.0) as isize`, modelled by the
exact real value `floor (((2 * payments_in) ^ (13 / 20)) * 200)`, which the
integer 20-th root computes.  The value is always nonnegative. -/
def User.credit_limit (u : User) : Int :=
  (rootFloor 20 ((2 * u.payments_in) ^ 13 * 200 ^ 20) : Int)

/-- Method `User::send_limit` of src/lib.rs:
`(self.credit_limit() + self.credit) as usize`. -/
def User.send_limit (u : User) : Nat :=
  usizeOfInt (u.credit_limit + u.credit)

/-- The storage errors the model can produce (rusqlite errors are opaque to
the core; only the two constraint violations matter here). -/
inductive DbError where
  | primaryKeyViolation
  | foreignKeyViolation
deriving Repr, DecidableEq

/-- Enum `SimpletsErr` of src/lib.rs. -/
inductive SimpletsErr where
  | Db : DbError → SimpletsErr
  | PaymentLessMin : Nat → SimpletsErr
  | PaymentSidesEq : SimpletsErr
  | PaymentReceiveLimit : Nat → SimpletsErr
  | PaymentSendLimit : Nat → SimpletsErr
  | MustNotHappen : SimpletsErr
deriving Repr, DecidableEq

/-- Method `User::payment_limit` of src/lib.rs: identify the binding
constraint (the smaller of the payer send limit and the payee receive
limit, the send side winning ties) before any amount is compared. -/
def User.payment_limit (u : User) (payee : User) : SimpletsErr :=
  let send_limit := u.send_limit
  let receive_limit := payee.receive_limit
  if send_limit ≤ receive_limit then SimpletsErr.PaymentSendLimit send_limit
  else SimpletsErr.PaymentReceiveLimit receive_limit

/-- Struct `Payment` of src/lib.rs (a committed transfer row).  The payer
and payee fields hold user ids. -/
structure Payment where
  id : Nat
  payer : Int
  payee : Int
  amount : Nat
  created : String
  message : String
deriving Repr, DecidableEq

/-- Struct `Domain` of src/lib.rs; the SQLite connection is replaced by the
two tables it stores. -/
structure Domain where
  name : String
  description : String
  minimal_amount : Nat
  users : List User
  payments : List Payment
deriving Repr, DecidableEq

/-- The SHA-256 hex digest (function `hash` of src/lib.rs) is an opaque
comparison token supplied by an external crate and never interpreted by the
ledger logic; it is modelled as an abstract tagging of the input. -/
def hash (data : String) : String := data

/-- Method `Domain::add_user` of src/lib.rs.  The arguments `id` and
`created` stand for the two clock readings `Local::now().timestamp()` and
`datetime('now', 'localtime')`, inputs of the model.  The row is inserted
with zero balance and counters and permission 1; inserting a duplicate
primary key makes the INSERT fail. -/
def Domain.add_user (d : Domain) (id : Int) (created name password : String) :
    Except SimpletsErr Domain :=
  if id ∈ d.users.map User.id then
    Except.error (SimpletsErr.Db DbError.primaryKeyViolation)
  else
    Except.ok { d with users := d.users ++
      [{ id := id, name := name, credit := 0, payments_in := 0, payments_out := 0,
         password := hash password, created := created, permission := 1 }] }

/-- Method `Domain::set_password` of src/lib.rs (UPDATE of the password
column of the rows with the given id). -/
def Domain.set_password (d : Domain) (user_id : Int) (new_password : String) : Domain :=
  { d with users := d.users.map (fun u =>
      if u.id = user_id then { u with password := hash new_password } else u) }

/-- The row change of the first UPDATE statement of `add_payment`:
`SET credit = credit - amount, payments_out = payments_out + 1`. -/
def debitUser (amount : Nat) (u : User) : User :=
  { u with credit := u.credit - (amount : Int), payments_out := u.payments_out + 1 }

/-- The row change of the second UPDATE statement of `add_payment`:
`SET credit = credit + amount, payments_in = payments_in + 1`. -/
def creditUser (amount : Nat) (u : User) : User :=
  { u with credit := u.credit + (amount : Int), payments_in := u.payments_in + 1 }

/-- Method `Domain::add_payment` of src/lib.rs (lines 212 to 228), inside
one SQL transaction: the minimum-amount check, the self-transfer check, the
limit check (falling through to the updates from either passing branch of
the match, every other limit shape being the internal error), then the
payer UPDATE, the payee UPDATE (each touching every row whose id matches)
and the INSERT of the payment row, whose foreign keys `payer` and `payee`
must reference existing user rows (`PRAGMA foreign_keys = ON`).  Any error
drops the transaction, rolling all updates back, so an error returns no
state; `created` stands for the commit timestamp. -/
def Domain.add_payment (d : Domain) (payer payee : User) (amount : Nat)
    (created message : String) : Except SimpletsErr Domain :=
  if amount < d.minimal_amount then
    Except.error (SimpletsErr.PaymentLessMin d.minimal_amount)
  else if payer.id = payee.id then
    Except.error SimpletsErr.PaymentSidesEq
  else
    let commit : Except SimpletsErr Domain :=
      let users1 := d.users.map (fun u => if u.id = payer.id then debitUser amount u else u)
      let users2 := users1.map (fun u => if u.id = payee.id then creditUser amount u else u)
      let row : Payment :=
        { id := d.payments.length + 1, payer := payer.id, payee := payee.id,
          amount := amount, created := created, message := message }
      if payer.id ∈ users2.map User.id ∧ payee.id ∈ users2.map User.id then
        Except.ok { d with users := users2, payments := d.payments ++ [row] }
      else Except.error (SimpletsErr.Db DbError.foreignKeyViolation)
    let limit := payer.payment_limit payee
    match limit with
    | SimpletsErr.PaymentSendLimit l => if amount > l then Except.error limit else commit
    | SimpletsErr.PaymentReceiveLimit l => if amount > l then Except.error limit else commit
    | _ => Except.error SimpletsErr.MustNotHappen

/-- The database state after a call to `add_payment`: the new state when the
transaction committed, the unchanged input state when any early return
dropped (rolled back) the transaction. -/
def Domain.add_payment_state (d : Domain) (payer payee : User) (amount : Nat)
    (created message : String) : Domain :=
  match d.add_payment payer payee amount created message with
  | Except.ok d2 => d2
  | Except.error _ => d

/-- The error component of an `add_payment` outcome. -/
def errOf (r : Except SimpletsErr Domain) : Option SimpletsErr :=
  match r with
  | Except.error e => some e
  | Except.ok _ => none

/-- Whether an `add_payment` outcome is the distinguished internal error. -/
def isMustNotHappen (r : Except SimpletsErr Domain) : Bool :=
  match r with
  | Except.error SimpletsErr.MustNotHappen => true
  | _ => false

/-- The sum of the balances of all accounts of a domain. -/
def Domain.creditSum (d : Domain) : Int := (d.users.map User.credit).sum

/-- Ledger states reachable from a fresh (empty) domain by the mutating
operations of the core.  The account snapshots handed to `add_payment` are
arbitrary, as in the source, where the caller fetched them earlier. -/
inductive Reachable : Domain → Prop where
  | init (name description : String) (minimal_amount : Nat) :
      Reachable { name := name, description := description,
                  minimal_amount := minimal_amount, users := [], payments := [] }
  | add_user {d d2 : Domain} (id : Int) (created name password : String) :
      Reachable d → d.add_user id created name password = Except.ok d2 → Reachable d2
  | add_payment {d d2 : Domain} (payer payee : User) (amount : Nat)
      (created message : String) :
      Reachable d → d.add_payment payer payee amount created message = Except.ok d2 →
      Reachable d2
  | set_password {d : Domain} (user_id : Int) (new_password : String) :
      Reachable d → Reachable (d.set_password user_id new_password)

/-! Concrete scenario data used by the theorems below. -/

/-- Account A of scenario 1 of the spec: balance 0, one transfer sent. -/
def userA : User :=
  { id := 1, name := "A", credit := 0, payments_in := 0, payments_out := 1,
    password := "", created := "", permission := 1 }

/-- Account B of scenario 1 of the spec: a fresh account. -/
def userB : User :=
  { id := 2, name := "B", credit := 0, payments_in := 0, payments_out := 0,
    password := "", created := "", permission := 1 }

/-- Domain of scenario 1 of the spec: minimal amount 0. -/
def domAB : Domain :=
  { name := "clets", description := "", minimal_amount := 0,
    users := [userA, userB], payments := [] }

/-- A payer whose history earns a large send limit (balance 3000). -/
def richUser : User :=
  { id := 9, name := "", credit := 3000, payments_in := 0, payments_out := 0,
    password := "", created := "", permission := 1 }

/-- An account used for the self-transfer scenarios. -/
def selfUser : User :=
  { id := 3, name := "", credit := 0, payments_in := 0, payments_out := 0,
    password := "", created := "", permission := 1 }

/-- A domain with the minimal transfer amount 10 of the reference deployment. -/
def selfDom : Domain :=
  { name := "clets", description := "", minimal_amount := 10,
    users := [selfUser], payments := [] }

/-- The account of the test `held_credit_over_limit` of src/tests.rs:
balance 10000 with no transfer ever sent, so its signed receive limit
is `0 + 2500 - 10000 = -7500`. -/
def heldUser : User :=
  { id := 4, name := "", credit := 10000, payments_in := 0, payments_out := 0,
    password := "", created := "", permission := 1 }

/-- A payer with a positive send limit (balance 100). -/
def smallPayer : User :=
  { id := 5, name := "", credit := 100, payments_in := 0, payments_out := 0,
    password := "", created := "", permission := 1 }

/-- A domain holding `smallPayer` and `heldUser`. -/
def heldDom : Domain :=
  { name := "", description := "", minimal_amount := 0,
    users := [smallPayer, heldUser], payments := [] }

/-- An account overdrawn past its credit line: balance -1 with no receive
history, so its signed send limit would be `0 + (-1) = -1`. -/
def overdrawnUser : User :=
  { id := 6, name := "", credit := -1, payments_in := 0, payments_out := 0,
    password := "", created := "", permission := 1 }

/-- A fresh payee (receive limit 2500). -/
def freshPayee : User :=
  { id := 7, name := "", credit := 0, payments_in := 0, payments_out := 0,
    password := "", created := "", permission := 1 }

/-- A domain holding `overdrawnUser` and `freshPayee`. -/
def overdrawnDom : Domain :=
  { name := "", description := "", minimal_amount := 0,
    users := [overdrawnUser, freshPayee], payments := [] }

/-- A payer with balance 1 (send limit 1), for a committed transfer. -/
def wPayer : User :=
  { id := 11, name := "p", credit := 1, payments_in := 0, payments_out := 0,
    password := "", created := "", permission := 1 }

/-- A payee with balance -1, for a committed transfer. -/
def wPayee : User :=
  { id := 12, name := "q", credit := -1, payments_in := 0, payments_out := 0,
    password := "", created := "", permission := 1 }

/-- A domain on which `add_payment wPayer wPayee 1` commits. -/
def wDom : Domain :=
  { name := "", description := "", minimal_amount := 0,
    users := [wPayer, wPayee], payments := [] }

/-- The state committed by `add_payment wPayer wPayee 1 "t" "m"`. -/
def wDom2 : Domain :=
  { wDom with
    users := [debitUser 1 wPayer, creditUser 1 wPayee],
    payments := [{ id := 1, payer := 11, payee := 12, amount := 1,
                   created := "t", message := "m" }] }

/-- The state committed by `add_payment wPayer wPayee 1 "t" "x"`. -/
def wDomX : Domain :=
  { wDom with
    users := [debitUser 1 wPayer, creditUser 1 wPayee],
    payments := [{ id := 1, payer := 11, payee := 12, amount := 1,
                   created := "t", message := "x" }] }

/-- The state committed by `add_payment wPayer wPayee 1 "t" ""`. -/
def wDomE : Domain :=
  { wDom with
    users := [debitUser 1 wPayer, creditUser 1 wPayee],
    payments := [{ id := 1, payer := 11, payee := 12, amount := 1,
                   created := "t", message := "" }] }

/-- A fresh domain for the reachability chain. -/
def domW0 : Domain :=
  { name := "clets", description := "", minimal_amount := 0,
    users := [], payments := [] }

/-- The user row created by `add_user 21`. -/
def rowA : User :=
  { id := 21, name := "a", credit := 0, payments_in := 0, payments_out := 0,
    password := hash "pa", created := "t1", permission := 1 }

/-- The user row created by `add_user 22`. -/
def rowB : User :=
  { id := 22, name := "b", credit := 0, payments_in := 0, payments_out := 0,
    password := hash "pb", created := "t2", permission := 1 }

/-- The state after the two account creations. -/
def domW1 : Domain := { domW0 with users := [rowA] }

/-- The state after the two account creations. -/
def domW2 : Domain := { domW1 with users := [rowA, rowB] }

/-- A snapshot of the row with id 21, as a caller would fetch it. -/
def snapA : User := rowA

/-- A snapshot of the row with id 22, as a caller would fetch it. -/
def snapB : User := rowB

/-- The state after a committed zero-amount transfer from 21 to 22. -/
def domW3 : Domain :=
  { domW2 with
    users := [debitUser 0 rowA, creditUser 0 rowB],
    payments := [{ id := 1, payer := 21, payee := 22, amount := 0,
                   created := "t3", message := "m" }] }

/-! Helper lemmas. -/

/-- Mapping an id-preserving row change over the user table does not change
the list of ids. -/
theorem ids_map_of_preserve (l : List User) (g : User → User)
    (hg : ∀ u, (g u).id = u.id) : (l.map g).map User.id = l.map User.id := by
  rw [List.map_map]
  refine List.map_congr_left ?_
  intro u _
  exact hg u

/-- An UPDATE touching the rows with one fixed id, when that id occurs
exactly once (primary key uniqueness) and the row change shifts the balance
by `δ`, shifts the sum of all balances by `δ`. -/
theorem sum_credit_map_update (l : List User) (i : Int) (f : User → User) (δ : Int)
    (hf : ∀ u, (f u).credit = u.credit + δ)
    (hnd : (l.map User.id).Nodup) (hmem : i ∈ l.map User.id) :
    ((l.map (fun u => if u.id = i then f u else u)).map User.credit).sum
      = (l.map User.credit).sum + δ := by
  induction l with
  | nil => simp at hmem
  | cons u rest ih =>
    rw [List.map_cons, List.nodup_cons] at hnd
    rw [List.map_cons, List.mem_cons] at hmem
    by_cases h : u.id = i
    · have hrest : rest.map (fun v => if v.id = i then f v else v) = rest := by
        conv_rhs => rw [← List.map_id rest]
        refine List.map_congr_left ?_
        intro v hv
        have hvne : ¬ v.id = i := by
          intro hvi
          exact hnd.1 (by rw [h, ← hvi]; exact List.mem_map_of_mem User.id hv)
        simp [hvne]
      simp only [List.map_cons, if_pos h, hrest, List.sum_cons, hf u]
      ring
    · have hmem2 : i ∈ rest.map User.id := by
        rcases hmem with he | hm
        · exact absurd he.symm h
        · exact hm
      simp only [List.map_cons, if_neg h, List.sum_cons, ih hnd.2 hmem2]
      ring

/-- The two row changes of the UPDATE statements keep the row id. -/
theorem debitUser_id (amount : Nat) (u : User) : (debitUser amount u).id = u.id := rfl

/-- The two row changes of the UPDATE statements keep the row id. -/
theorem creditUser_id (amount : Nat) (u : User) : (creditUser amount u).id = u.id := rfl

/-- An UPDATE restricted by a WHERE clause on the id keeps the row id when
its row change does. -/
theorem ite_update_id (i : Int) (f : User → User) (hf : ∀ u, (f u).id = u.id) (u : User) :
    (if u.id = i then f u else u).id = u.id := by
  by_cases h : u.id = i <;> simp [h, hf]

/-- The binding-constraint computation always yields one of its two
payment-limit shapes. -/
theorem payment_limit_cases (payer payee : User) :
    payer.payment_limit payee = SimpletsErr.PaymentSendLimit payer.send_limit ∨
    payer.payment_limit payee = SimpletsErr.PaymentReceiveLimit payee.receive_limit := by
  by_cases h : payer.send_limit ≤ payee.receive_limit
  · exact Or.inl (by simp [User.payment_limit, h])
  · exact Or.inr (by simp [User.payment_limit, h])

/-- Everything a committed `add_payment` tells us: all three checks passed,
both ids exist in the table (the foreign keys of the INSERT), and the new
state is the two UPDATEs applied in order plus the appended payment row. -/
theorem add_payment_ok_elim {d d2 : Domain} {payer payee : User} {amount : Nat}
    {created message : String}
    (h : d.add_payment payer payee amount created message = Except.ok d2) :
    ¬ amount < d.minimal_amount ∧ payer.id ≠ payee.id ∧
      payer.id ∈ d.users.map User.id ∧ payee.id ∈ d.users.map User.id ∧
      d2.users = (d.users.map (fun u => if u.id = payer.id then debitUser amount u else u)).map
          (fun u => if u.id = payee.id then creditUser amount u else u) ∧
      d2.payments = d.payments ++
        [{ id := d.payments.length + 1, payer := payer.id, payee := payee.id,
           amount := amount, created := created, message := message }] ∧
      d2.name = d.name ∧ d2.description = d.description ∧
      d2.minimal_amount = d.minimal_amount := by
  rcases payment_limit_cases payer payee with hl | hl <;>
  · simp only [Domain.add_payment, hl] at h
    split_ifs at h with h1 h2 h3 h4
    rw [ids_map_of_preserve _ _ (ite_update_id payee.id (creditUser amount) (creditUser_id amount)),
        ids_map_of_preserve _ _ (ite_update_id payer.id (debitUser amount) (debitUser_id amount))] at h4
    injection h with heq
    subst heq
    exact ⟨h1, h2, h4.1, h4.2, rfl, rfl, rfl, rfl, rfl⟩

/-- The two sequential UPDATEs of a committed transfer, restricted to two
distinct ids, merge into one pass over the table. -/
theorem map_update_merge (l : List User) (p q : Int) (hpq : p ≠ q) (a : Nat) :
    (l.map (fun u => if u.id = p then debitUser a u else u)).map
        (fun u => if u.id = q then creditUser a u else u)
      = l.map (fun u => if u.id = p then debitUser a u
               else if u.id = q then creditUser a u else u) := by
  rw [List.map_map]
  refine List.map_congr_left ?_
  intro u _
  simp only [Function.comp]
  by_cases h : u.id = p
  · have hnq : ¬ (debitUser a u).id = q := by
      rw [debitUser_id, h]
      exact hpq
    rw [if_pos h, if_pos h, if_neg hnq]
  · rw [if_neg h, if_neg h]

/-- The combined ledger invariant: in every reachable state the user ids
are pairwise distinct (primary key) and the balances sum to zero. -/
theorem reachable_invariant {d : Domain} (h : Reachable d) :
    (d.users.map User.id).Nodup ∧ d.creditSum = 0 := by
  induction h with
  | init name description minimal_amount => simp [Domain.creditSum]
  | add_user id created name password hr hok ih =>
    rename_i d0 d2
    simp only [Domain.add_user] at hok
    split_ifs at hok with hmem
    injection hok with heq
    subst heq
    constructor
    · rw [List.map_append, List.nodup_append]
      refine ⟨ih.1, List.nodup_singleton id, ?_⟩
      intro x hx hx2
      simp only [List.map_cons, List.map_nil, List.mem_singleton] at hx2
      subst hx2
      exact hmem hx
    · have hsum := ih.2
      simp only [Domain.creditSum] at hsum ⊢
      simp [List.map_append, hsum]
  | add_payment payer payee amount created message hr hok ih =>
    rename_i d0 d2
    obtain ⟨h1, h2, hpmem, hqmem, husers, hpays, hn, hdesc, hmin⟩ := add_payment_ok_elim hok
    constructor
    · rw [husers,
          ids_map_of_preserve _ _ (ite_update_id payee.id (creditUser amount) (creditUser_id amount)),
          ids_map_of_preserve _ _ (ite_update_id payer.id (debitUser amount) (debitUser_id amount))]
      exact ih.1
    · have hnd1 : (((d0.users.map (fun u => if u.id = payer.id then debitUser amount u else u))).map User.id).Nodup := by
        rw [ids_map_of_preserve _ _ (ite_update_id payer.id (debitUser amount) (debitUser_id amount))]
        exact ih.1
      have hmem1 : payee.id ∈ ((d0.users.map (fun u => if u.id = payer.id then debitUser amount u else u))).map User.id := by
        rw [ids_map_of_preserve _ _ (ite_update_id payer.id (debitUser amount) (debitUser_id amount))]
        exact hqmem
      have hcred : ∀ u : User, (creditUser amount u).credit = u.credit + (amount : Int) :=
        fun u => rfl
      have hdeb : ∀ u : User, (debitUser amount u).credit = u.credit + (-(amount : Int)) :=
        fun u => sub_eq_add_neg u.credit (amount : Int)
      have hsum := ih.2
      simp only [Domain.creditSum] at hsum ⊢
      rw [husers,
          sum_credit_map_update _ payee.id (creditUser amount) ((amount : Int)) hcred hnd1 hmem1,
          sum_credit_map_update _ payer.id (debitUser amount) (-(amount : Int)) hdeb ih.1 hpmem,
          hsum]
      ring
  | set_password user_id new_password hr ih =>
    rename_i d0
    constructor
    · simp only [Domain.set_password]
      rw [ids_map_of_preserve _ _
            (ite_update_id user_id (fun u => { u with password := hash new_password })
              (fun u => rfl))]
      exact ih.1
    · have hsum := ih.2
      simp only [Domain.creditSum, Domain.set_password] at hsum ⊢
      rw [List.map_map]
      have hcongr : ∀ u ∈ d0.users,
          (User.credit ∘ fun u => if u.id = user_id then { u with password := hash new_password } else u) u
            = User.credit u := by
        intro u _
        by_cases h : u.id = user_id <;> simp [Function.comp, h]
      rw [List.map_congr_left hcongr]
      exact hsum

/-! The claim theorems. -/

/-- C1.  Zero-sum invariant: in every reachable ledger state the balances
of all accounts sum to exactly 0 (account creation starts every balance at
0 and a committed transfer debits the payer by the same amount it credits
the payee, so every operation preserves the sum). -/
theorem zero_sum_invariant (d : Domain) (h : Reachable d) : d.creditSum = 0 :=
  (reachable_invariant h).2

/-- Witness for C1: a concrete reachable state (two account creations
followed by a committed zero-amount transfer) has balance sum 0. -/
theorem zero_sum_invariant_witness : domW3.creditSum = 0 :=
  zero_sum_invariant domW3
    (Reachable.add_payment snapA snapB 0 "t3" "m"
      (Reachable.add_user 22 "t2" "b" "pb"
        (Reachable.add_user 21 "t1" "a" "pa" (Reachable.init "clets" "" 0) rfl)
        rfl)
      rfl)

/-- C2.  A committed transfer (`add_payment` returning `Ok`) debits the
payer row by exactly `amount` and bumps its `payments_out` by 1
(`debitUser`), credits the payee row by exactly `amount` and bumps its
`payments_in` by 1 (`creditUser`), leaves every other row and every other
field unchanged, appends exactly one payment record, and changes nothing
else in the domain. -/
theorem add_payment_ok_effects {d d2 : Domain} {payer payee : User} {amount : Nat}
    {created message : String}
    (h : d.add_payment payer payee amount created message = Except.ok d2) :
    d2.users = d.users.map (fun u =>
        if u.id = payer.id then debitUser amount u
        else if u.id = payee.id then creditUser amount u else u) ∧
    d2.payments = d.payments ++
      [{ id := d.payments.length + 1, payer := payer.id, payee := payee.id,
         amount := amount, created := created, message := message }] ∧
    d2.name = d.name ∧ d2.description = d.description ∧
    d2.minimal_amount = d.minimal_amount := by
  obtain ⟨h1, h2, hpmem, hqmem, husers, hpays, hn, hdesc, hmin⟩ := add_payment_ok_elim h
  exact ⟨by rw [husers, map_update_merge _ _ _ h2], hpays, hn, hdesc, hmin⟩

/-- Witness for C2: a concrete committed transfer of amount 1. -/
theorem add_payment_ok_effects_witness :
    wDom.add_payment wPayer wPayee 1 "t" "m" = Except.ok wDom2 ∧
    wDom2.users = wDom.users.map (fun u =>
        if u.id = wPayer.id then debitUser 1 u
        else if u.id = wPayee.id then creditUser 1 u else u) ∧
    wDom2.payments = wDom.payments ++
      [{ id := wDom.payments.length + 1, payer := wPayer.id, payee := wPayee.id,
         amount := 1, created := "t", message := "m" }] := by
  have h : wDom.add_payment wPayer wPayee 1 "t" "m" = Except.ok wDom2 := rfl
  exact ⟨h, (add_payment_ok_effects h).1, (add_payment_ok_effects h).2.1⟩

/-- C3.  Error atomicity: whenever `add_payment` returns any error, the
transaction is rolled back and the resulting database state is exactly the
input state (balances, counters and the payment log are all unchanged). -/
theorem add_payment_error_atomic {d : Domain} {payer payee : User} {amount : Nat}
    {created message : String} {e : SimpletsErr}
    (h : d.add_payment payer payee amount created message = Except.error e) :
    d.add_payment_state payer payee amount created message = d := by
  simp [Domain.add_payment_state, h]

/-- Witness for C3: a concrete failing transfer (send limit 0 exceeded)
leaves the domain unchanged. -/
theorem add_payment_error_atomic_witness :
    domAB.add_payment userA userB 2 "" "" = Except.error (SimpletsErr.PaymentSendLimit 0) ∧
    domAB.add_payment_state userA userB 2 "" "" = domAB := by
  have h : domAB.add_payment userA userB 2 "" "" =
      Except.error (SimpletsErr.PaymentSendLimit 0) := rfl
  exact ⟨h, add_payment_error_atomic h⟩

/-- C4.  Validation precedence of `add_payment`: (1) an amount below the
domain minimum fails with `PaymentLessMin minimal_amount` before anything
else is looked at; (2) otherwise equal payer and payee ids fail with
`PaymentSidesEq`; (3) otherwise the binding limit identified by
`payment_limit` is compared with the amount, and exceeding it yields that
same limit error.  The first failing check determines the error. -/
theorem add_payment_check_precedence (d : Domain) (payer payee : User) (amount : Nat)
    (created message : String) :
    (amount < d.minimal_amount →
      d.add_payment payer payee amount created message =
        Except.error (SimpletsErr.PaymentLessMin d.minimal_amount)) ∧
    (¬ amount < d.minimal_amount → payer.id = payee.id →
      d.add_payment payer payee amount created message =
        Except.error SimpletsErr.PaymentSidesEq) ∧
    (¬ amount < d.minimal_amount → payer.id ≠ payee.id →
      ∀ l, payer.payment_limit payee = SimpletsErr.PaymentSendLimit l → l < amount →
        d.add_payment payer payee amount created message =
          Except.error (SimpletsErr.PaymentSendLimit l)) ∧
    (¬ amount < d.minimal_amount → payer.id ≠ payee.id →
      ∀ l, payer.payment_limit payee = SimpletsErr.PaymentReceiveLimit l → l < amount →
        d.add_payment payer payee amount created message =
          Except.error (SimpletsErr.PaymentReceiveLimit l)) := by
  refine ⟨?_, ?_, ?_, ?_⟩
  · intro h1
    simp [Domain.add_payment, h1]
  · intro h1 h2
    simp [Domain.add_payment, h1, h2]
  · intro h1 h2 l hl hgt
    simp [Domain.add_payment, h1, h2, hl, hgt]
  · intro h1 h2 l hl hgt
    simp [Domain.add_payment, h1, h2, hl, hgt]

/-- Witness for C4: the three kinds of failing checks at concrete inputs,
in precedence order: amount 5 below minimum 10 (even on a self transfer),
self transfer at amount 10, send limit 0 exceeded by amount 1, and receive
limit 2500 exceeded by amount 2600. -/
theorem add_payment_check_precedence_witness :
    selfDom.add_payment selfUser selfUser 5 "" "" =
      Except.error (SimpletsErr.PaymentLessMin 10) ∧
    selfDom.add_payment selfUser selfUser 10 "" "" =
      Except.error SimpletsErr.PaymentSidesEq ∧
    domAB.add_payment userA userB 1 "" "" =
      Except.error (SimpletsErr.PaymentSendLimit 0) ∧
    domAB.add_payment richUser userB 2600 "" "" =
      Except.error (SimpletsErr.PaymentReceiveLimit 2500) := by
  refine ⟨?_, ?_, ?_, ?_⟩
  · exact (add_payment_check_precedence selfDom selfUser selfUser 5 "" "").1 (by decide)
  · exact (add_payment_check_precedence selfDom selfUser selfUser 10 "" "").2.1
      (by decide) rfl
  · exact (add_payment_check_precedence domAB userA userB 1 "" "").2.2.1
      (by decide) (by decide) 0 rfl (by decide)
  · exact (add_payment_check_precedence domAB richUser userB 2600 "" "").2.2.2
      (by decide) (by decide) 2500 rfl (by decide)

/-- Counterexample for C5: with the reference minimum 10, the self
transfer of amount 5 fails with `PaymentLessMin 10`, not with
`PaymentSidesEq` — the claim as stated (self transfers always fail with
the self-transfer error regardless of the amount) is false, because the
minimum-amount check has higher precedence. -/
theorem self_transfer_below_min_cex :
    errOf (selfDom.add_payment selfUser selfUser 5 "" "") =
      some (SimpletsErr.PaymentLessMin 10) ∧
    decide (errOf (selfDom.add_payment selfUser selfUser 5 "" "") =
      some SimpletsErr.PaymentSidesEq) = false := by
  exact ⟨rfl, rfl⟩

/-- C5 (amended).  For every amount at least the domain minimum, every
message and every account `x`, the self transfer fails with
`PaymentSidesEq` regardless of balances, and the state is unchanged. -/
theorem self_transfer_fails (d : Domain) (x : User) (amount : Nat)
    (created message : String) (h : d.minimal_amount ≤ amount) :
    d.add_payment x x amount created message = Except.error SimpletsErr.PaymentSidesEq ∧
    d.add_payment_state x x amount created message = d := by
  have h1 : ¬ amount < d.minimal_amount := Nat.not_lt.mpr h
  have he : d.add_payment x x amount created message =
      Except.error SimpletsErr.PaymentSidesEq := by
    simp [Domain.add_payment, h1]
  exact ⟨he, by simp [Domain.add_payment_state, he]⟩

/-- Witness for C5 (amended): a concrete self transfer at the minimum. -/
theorem self_transfer_fails_witness :
    selfDom.minimal_amount ≤ 12 ∧
    selfDom.add_payment selfUser selfUser 12 "" "" =
      Except.error SimpletsErr.PaymentSidesEq ∧
    selfDom.add_payment_state selfUser selfUser 12 "" "" = selfDom :=
  ⟨by decide, (self_transfer_fails selfDom selfUser 12 "" "" (by decide)).1,
    (self_transfer_fails selfDom selfUser 12 "" "" (by decide)).2⟩

/-- C6 (code bug, evaluated at the failing input).  For the account of the
test `held_credit_over_limit` of src/tests.rs (balance 10000, zero sends),
the signed receive-limit expression is -7500, but `receive_limit` casts it
with `as usize`, wrapping it to `2 ^ 64 - 7500`; the wrapped value acts as
an enormous ceiling, so a transfer of 50 to this over-limit account commits
instead of being rejected. -/
theorem receive_limit_wraps :
    ((sqrtTimes2500 heldUser.payments_out : Int) + 2500 - heldUser.credit) = -7500 ∧
    heldUser.receive_limit = 18446744073709544116 ∧
    usizeOfInt (-7500) = 2 ^ 64 - 7500 ∧
    (heldDom.add_payment smallPayer heldUser 50 "" "").isOk = true :=
  ⟨rfl, rfl, rfl, rfl⟩

/-- Counterexample for C7: for an account with balance -1 and no receive
history, `credit_limit + credit = -1`, but `send_limit` is not that signed
value: the `as usize` cast wraps it to `2 ^ 64 - 1`, and a positive
transfer of amount 1 from this account commits instead of exceeding the
limit. -/
theorem send_limit_wrap_cex :
    decide ((overdrawnUser.send_limit : Int) =
      overdrawnUser.credit_limit + overdrawnUser.credit) = false ∧
    overdrawnUser.send_limit = 18446744073709551615 ∧
    (overdrawnDom.add_payment overdrawnUser freshPayee 1 "" "").isOk = true :=
  ⟨rfl, rfl, rfl⟩

/-- C7 (amended).  `send_limit` is the unsigned 64-bit cast of
`credit_limit + credit`: it equals the signed sum while that sum is in
`[0, 2 ^ 64)`, and wraps to `sum + 2 ^ 64` when the sum is negative (but
above `-2 ^ 64`), so a negative send capacity becomes a huge limit that
positive requested amounts do not exceed. -/
theorem send_limit_signed_cast (u : User) :
    (0 ≤ u.credit_limit + u.credit → u.credit_limit + u.credit < 2 ^ 64 →
      (u.send_limit : Int) = u.credit_limit + u.credit) ∧
    (-(2 ^ 64) ≤ u.credit_limit + u.credit → u.credit_limit + u.credit < 0 →
      (u.send_limit : Int) = u.credit_limit + u.credit + 2 ^ 64) := by
  constructor
  · intro h1 h2
    simp only [User.send_limit, usizeOfInt]
    omega
  · intro h1 h2
    simp only [User.send_limit, usizeOfInt]
    omega

/-- Witness for C7 (amended): the wrapped case at balance -1 and the exact
case at balance 1. -/
theorem send_limit_signed_cast_witness :
    ((-(2 ^ 64) : Int) ≤ overdrawnUser.credit_limit + overdrawnUser.credit ∧
      overdrawnUser.credit_limit + overdrawnUser.credit < 0 ∧
      (overdrawnUser.send_limit : Int) =
        overdrawnUser.credit_limit + overdrawnUser.credit + 2 ^ 64) ∧
    ((0 : Int) ≤ wPayer.credit_limit + wPayer.credit ∧
      wPayer.credit_limit + wPayer.credit < 2 ^ 64 ∧
      (wPayer.send_limit : Int) = wPayer.credit_limit + wPayer.credit) :=
  ⟨⟨by decide, by decide,
      (send_limit_signed_cast overdrawnUser).2 (by decide) (by decide)⟩,
    ⟨by decide, by decide,
      (send_limit_signed_cast wPayer).1 (by decide) (by decide)⟩⟩

/-- C8.  Concrete scenario 1 of the spec: with minimum 0, payer A (balance
0, one transfer sent, none received) and payee B (fresh), B has receive
limit 2500, A has send limit 0, and the transfer of amount 1 from A to B
fails with `PaymentSendLimit 0`. -/
theorem scenario_one :
    userB.receive_limit = 2500 ∧
    userA.send_limit = 0 ∧
    domAB.add_payment userA userB 1 "" "" =
      Except.error (SimpletsErr.PaymentSendLimit 0) :=
  ⟨rfl, rfl, rfl⟩

/-- C9.  The `MustNotHappen` branch of `add_payment` is dead code:
`payment_limit` always returns one of its two payment-limit shapes, so
`add_payment` never returns the internal error. -/
theorem must_not_happen_unreachable :
    (∀ payer payee : User,
      payer.payment_limit payee = SimpletsErr.PaymentSendLimit payer.send_limit ∨
      payer.payment_limit payee = SimpletsErr.PaymentReceiveLimit payee.receive_limit) ∧
    ∀ (d : Domain) (payer payee : User) (amount : Nat) (created message : String),
      isMustNotHappen (d.add_payment payer payee amount created message) = false := by
  refine ⟨payment_limit_cases, ?_⟩
  intro d payer payee amount created message
  rcases payment_limit_cases payer payee with hl | hl <;>
    simp only [Domain.add_payment, hl] <;>
    split_ifs <;>
    simp [isMustNotHappen]

/-- C10.  The core imposes no message-length bound: the outcome of
`add_payment` (which error, or success) is the same for any two messages,
and on success the resulting user table and domain settings are identical
— only the stored payment text differs.  (The 140-character bound lives in
the presentation layer, which returns before calling the core.) -/
theorem add_payment_message_independent (d : Domain) (payer payee : User) (amount : Nat)
    (created m1 m2 : String) :
    errOf (d.add_payment payer payee amount created m1) =
      errOf (d.add_payment payer payee amount created m2) ∧
    ∀ d1 d2, d.add_payment payer payee amount created m1 = Except.ok d1 →
      d.add_payment payer payee amount created m2 = Except.ok d2 →
      d1.users = d2.users ∧ d1.minimal_amount = d2.minimal_amount ∧
      d1.payments.length = d2.payments.length := by
  constructor
  · rcases payment_limit_cases payer payee with hl | hl <;>
      simp only [Domain.add_payment, hl] <;>
      split_ifs <;>
      rfl
  · intro d1 d2 hx hy
    obtain ⟨_, _, _, _, hu1, hp1, _, _, hm1⟩ := add_payment_ok_elim hx
    obtain ⟨_, _, _, _, hu2, hp2, _, _, hm2⟩ := add_payment_ok_elim hy
    refine ⟨hu1.trans hu2.symm, hm1.trans hm2.symm, ?_⟩
    rw [hp1, hp2]
    simp

/-- Witness for C10: the same committed transfer with messages "x" and ""
yields the same user table. -/
theorem add_payment_message_independent_witness :
    wDom.add_payment wPayer wPayee 1 "t" "x" = Except.ok wDomX ∧
    wDom.add_payment wPayer wPayee 1 "t" "" = Except.ok wDomE ∧
    wDomX.users = wDomE.users := by
  have hx : wDom.add_payment wPayer wPayee 1 "t" "x" = Except.ok wDomX := rfl
  have he : wDom.add_payment wPayer wPayee 1 "t" "" = Except.ok wDomE := rfl
  exact ⟨hx, he,
    ((add_payment_message_independent wDom wPayer wPayee 1 "t" "x" "").2 wDomX wDomE hx he).1⟩

end Simplets
